import Mathlib

/-!
Verification development for `Final.py` (JulepAgent).

The tool functions of `Final.py` are shallowly embedded here:
* Python values (as produced by `response.json()` / returned by the tools)
  become the inductive type `PyVal`; JSON numbers are modelled as rationals.
* `requests.get` + `raise_for_status` + `.json()` are abstracted into the
  `Resp` oracle (connection error, HTTP error, JSON decode error, or a parsed
  body); `gmaps.places` becomes an oracle `String → MapsResult` consulted at
  the query string the code builds.
* Python exceptions inside the `try:` bodies are the `Exn` type threaded
  through `Except`; an exception escaping a function (raised to the caller)
  is an `Except.error` of the function itself.
* `datetime.datetime.now()` and the local timezone become explicit
  parameters `now : ℚ` (epoch seconds) and `tz : ℤ` (UTC offset in seconds);
  `datetime.fromtimestamp(dt).hour` is `pyHour tz dt`.
* Python `round` (banker's rounding, ties to even) is `pyRound`.
-/

namespace Final

/-- Python/JSON values as they appear in the script's data flow. -/
inductive PyVal where
  | none : PyVal
  | bool : Bool → PyVal
  | num : ℚ → PyVal
  | str : String → PyVal
  | list : List PyVal → PyVal
  | dict : List (String × PyVal) → PyVal

/-- Python exceptions raised (and possibly caught) inside the tool bodies.
`KeyError` is distinguished because `getWeatherDetails` has a dedicated
`except KeyError` clause; every other exception type only meets broad
`except` clauses, so a message string suffices. -/
inductive Exn where
  | keyError : String → Exn
  | otherExn : String → Exn
deriving DecidableEq

/-- The `{'error': msg}` dictionaries the tools return on caught failures. -/
def errDict (msg : String) : PyVal :=
  PyVal.dict [("error", PyVal.str msg)]

/-- Python truthiness, as used by `not todayMorningForecast`,
`if not places`, etc. -/
def PyVal.isTruthy : PyVal → Bool
  | .none => false
  | .bool b => b
  | .num q => q != 0
  | .str s => !s.isEmpty
  | .list xs => !xs.isEmpty
  | .dict fs => !fs.isEmpty

/-- Python `v == '200'` on a JSON value: true exactly for the string
`"200"` (no JSON value of another type compares equal to a `str`). -/
def isStr200 : PyVal → Bool
  | .str s => s == "200"
  | _ => false

/-- Python `d.get(k)`: `None`-defaulting lookup on a dict, `AttributeError`
on any non-dict receiver. -/
def PyVal.get : PyVal → String → Except Exn (Option PyVal)
  | .dict fs, k => Except.ok (fs.lookup k)
  | _, _ => Except.error (Exn.otherExn "AttributeError: object has no attribute get")

/-- Python `d[k]` with a string key: `KeyError` when a dict lacks the key,
`TypeError` on receivers that cannot be indexed by a string. -/
def PyVal.getItem : PyVal → String → Except Exn PyVal
  | .dict fs, k =>
    match fs.lookup k with
    | Option.some v => Except.ok v
    | Option.none => Except.error (Exn.keyError k)
  | _, _ => Except.error (Exn.otherExn "TypeError: value is not subscriptable by string key")

/-- Python `v[0]`: first element of a list or string (`IndexError` when
empty), `KeyError` on dicts, `TypeError` otherwise. -/
def pyIndexZero : PyVal → Except Exn PyVal
  | .list [] => Except.error (Exn.otherExn "IndexError: list index out of range")
  | .list (x :: _) => Except.ok x
  | .str s =>
    match s.toList with
    | [] => Except.error (Exn.otherExn "IndexError: string index out of range")
    | c :: _ => Except.ok (PyVal.str (String.singleton c))
  | .dict _ => Except.error (Exn.keyError "0")
  | _ => Except.error (Exn.otherExn "TypeError: object is not subscriptable")

/-- Python `for x in v`: lists yield elements, strings yield characters,
dicts yield their keys, everything else raises `TypeError`. -/
def pyIter : PyVal → Except Exn (List PyVal)
  | .list xs => Except.ok xs
  | .str s => Except.ok (s.toList.map (fun c => PyVal.str (String.singleton c)))
  | .dict fs => Except.ok (fs.map (fun p => PyVal.str p.1))
  | _ => Except.error (Exn.otherExn "TypeError: object is not iterable")

/-- Coercion of a `PyVal` to a number, as `datetime.fromtimestamp` and
`round` require (Python `bool` is an `int`). -/
def toNum : PyVal → Except Exn ℚ
  | .num q => Except.ok q
  | .bool b => Except.ok (if b then 1 else 0)
  | _ => Except.error (Exn.otherExn "TypeError: a number is required")

/-- Python `round`: nearest integer, ties to even (banker's rounding). -/
def pyRound (q : ℚ) : ℤ :=
  let f := Rat.floor q
  let r := q - (f : ℚ)
  if r < 1/2 then f
  else if 1/2 < r then f + 1
  else if f % 2 = 0 then f else f + 1

/-- `datetime.fromtimestamp(dt).hour` for a process running at UTC offset
`tz` seconds: the local hour of day, in `[0, 24)`. -/
def pyHour (tz : ℤ) (dt : ℚ) : ℤ :=
  (Rat.floor ((dt + (tz : ℚ)) / 3600)).emod 24

/-- Outcome of `requests.get(Url)`, `response.raise_for_status()` and
`response.json()` on lines 22-24: a `requests` connection failure, an HTTP
error status (`raise_for_status`), a JSON decode failure (also a
`RequestException` in requests ≥ 2.27), or a parsed body. -/
inductive Resp where
  | connError : String → Resp
  | httpError : String → Resp
  | jsonError : String → Resp
  | ok : PyVal → Resp

/-- `not slot` for the three forecast-slot variables (they start as `None`). -/
def slotEmpty (s : Option PyVal) : Bool :=
  match s with
  | Option.none => true
  | Option.some v => !v.isTruthy

/-- The `for forecast in forecastData['list']:` loop of lines 33-41, with
state (morning, lunch, evening) slots.  Each iteration reads
`forecast['dt']`, keeps the entry only when its time is strictly between
`now` and `now + 24h`, and fills the first empty matching hour window. -/
def bucketLoop (now : ℚ) (tz : ℤ) :
    List PyVal → Option PyVal × Option PyVal × Option PyVal →
    Except Exn (Option PyVal × Option PyVal × Option PyVal)
  | [], s => Except.ok s
  | f :: rest, (m, l, e) =>
    match f.getItem "dt" with
    | Except.error ex => Except.error ex
    | Except.ok dtV =>
      match toNum dtV with
      | Except.error ex => Except.error ex
      | Except.ok dt =>
        if now < dt ∧ dt < now + 86400 then
          let h := pyHour tz dt
          let m2 := if 7 ≤ h ∧ h < 12 ∧ slotEmpty m = true then Option.some f else m
          let l2 := if 12 ≤ h ∧ h < 17 ∧ slotEmpty l = true then Option.some f else l
          let e2 := if 18 ≤ h ∧ h < 23 ∧ slotEmpty e = true then Option.some f else e
          bucketLoop now tz rest (m2, l2, e2)
        else
          bucketLoop now tz rest (m, l, e)

/-- Lines 48-62: turn a selected forecast slot into the result sub-dict
`{'temperatureInCelsius': round(..['main']['temp']), 'condition':
..['weather'][0]['description']}`, or `None` when the slot is falsy. -/
def mkSlot (s : Option PyVal) : Except Exn PyVal :=
  match s with
  | Option.none => Except.ok PyVal.none
  | Option.some f =>
    if f.isTruthy = false then Except.ok PyVal.none
    else
      match f.getItem "main" with
      | Except.error e => Except.error e
      | Except.ok mainV =>
        match mainV.getItem "temp" with
        | Except.error e => Except.error e
        | Except.ok tempV =>
          match toNum tempV with
          | Except.error e => Except.error e
          | Except.ok t =>
            match f.getItem "weather" with
            | Except.error e => Except.error e
            | Except.ok w =>
              match pyIndexZero w with
              | Except.error e => Except.error e
              | Except.ok w0 =>
                match w0.getItem "description" with
                | Except.error e => Except.error e
                | Except.ok d =>
                  Except.ok (PyVal.dict
                    [("temperatureInCelsius", PyVal.num ((pyRound t : ℤ) : ℚ)),
                     ("condition", d)])

/-- Lines 25-63: the body of `getWeatherDetails` after a successful HTTP
round trip, from the `cod` check to the assembled result dict.  An
`Except.error` is an exception flying towards the `except` clauses. -/
def processBody (body : PyVal) (now : ℚ) (tz : ℤ) : Except Exn PyVal :=
  match body.get "cod" with
  | Except.error e => Except.error e
  | Except.ok cod =>
    if isStr200 (cod.getD PyVal.none) = false then Except.ok (PyVal.dict [])
    else
      match body.getItem "city" with
      | Except.error e => Except.error e
      | Except.ok cityV =>
        match cityV.getItem "name" with
        | Except.error e => Except.error e
        | Except.ok cityName =>
          match body.getItem "list" with
          | Except.error e => Except.error e
          | Except.ok lst =>
            match pyIter lst with
            | Except.error e => Except.error e
            | Except.ok entries =>
              match bucketLoop now tz entries (Option.none, Option.none, Option.none) with
              | Except.error e => Except.error e
              | Except.ok (m, l, e) =>
                match mkSlot m with
                | Except.error ex => Except.error ex
                | Except.ok mV =>
                  match mkSlot l with
                  | Except.error ex => Except.error ex
                  | Except.ok lV =>
                    match mkSlot e with
                    | Except.error ex => Except.error ex
                    | Except.ok eV =>
                      Except.ok (PyVal.dict
                        [("city", cityName), ("morning", mV),
                         ("lunch", lV), ("evening", eV)])

/-- `getWeatherDetails` (lines 14-71).  `key` is `OPENWEATHER_API_KEY`.
The URL concatenation `baseUrl + "appid=" + OPENWEATHER_API_KEY + ...` on
line 19 sits *before* the `try:` of line 21, so when the key is unset
(`None`) the `TypeError` from `str + None` escapes to the caller — that is
the `Except.error` case of the return type.  With a key present, every
exception of the body is caught by the three `except` clauses of lines
66-71 and mapped to an `{'error': ...}` dict. -/
def getWeatherDetails (key : Option String) (city : String) (resp : Resp)
    (now : ℚ) (tz : ℤ) : Except String PyVal :=
  match key with
  | Option.none =>
    Except.error "TypeError: can only concatenate str (not \"NoneType\") to str"
  | Option.some _ =>
    Except.ok <|
      match resp with
      | Resp.connError e => errDict ("Error connecting to Weather Service: " ++ e)
      | Resp.httpError e => errDict ("Error connecting to Weather Service: " ++ e)
      | Resp.jsonError e => errDict ("Error connecting to Weather Service: " ++ e)
      | Resp.ok body =>
        match processBody body now tz with
        | Except.ok v => v
        | Except.error (Exn.keyError k) =>
          errDict ("Unexpected data format from weather service. Missing key: '" ++ k ++ "'")
        | Except.error (Exn.otherExn m) =>
          errDict ("Unexpected Error " ++ m)

/-- Outcome of `gmaps.places(query=..., language='en')` on line 82, together
with the `googlemaps.Client(key=...)` construction on line 78: any exception
of either call (including the `ValueError` the client raises when
`MAPS_API_KEY` is unset) is `exn`, a returned response is `ok`. -/
inductive MapsResult where
  | exn : String → MapsResult
  | ok : PyVal → MapsResult

/-- The f-string of line 79. -/
def buildQuery (city dishName : String) : String :=
  "Best authentic " ++ dishName ++ " restaurants in " ++ city

/-- Lines 90-95: reduce one `place` dict to name / rating / address with
defaults (`place.get('address', {})` then `.get('formatted_address', ...)`). -/
def mkRestaurant (place : PyVal) : Except Exn PyVal :=
  match place.get "address" with
  | Except.error e => Except.error e
  | Except.ok addrO =>
    let addressDict := addrO.getD (PyVal.dict [])
    match place.get "name" with
    | Except.error e => Except.error e
    | Except.ok nameO =>
      match place.get "rating" with
      | Except.error e => Except.error e
      | Except.ok ratingO =>
        match addressDict.get "formatted_address" with
        | Except.error e => Except.error e
        | Except.ok faO =>
          Except.ok (PyVal.dict
            [("name", nameO.getD PyVal.none),
             ("rating", ratingO.getD (PyVal.str "N/A")),
             ("address", faO.getD (PyVal.str "Address Not Available"))])

/-- The `for place in places['results'][:3]:` accumulation of lines 87-95. -/
def buildRestaurants : List PyVal → Except Exn (List PyVal)
  | [] => Except.ok []
  | p :: rest =>
    match mkRestaurant p with
    | Except.error e => Except.error e
    | Except.ok r =>
      match buildRestaurants rest with
      | Except.error e => Except.error e
      | Except.ok rs => Except.ok (r :: rs)

/-- Lines 84-97: the body of `findTopRestaurants` after the places call,
from the emptiness check to the `{'restaurants': [...]}` wrapper.  An
`Except.error` is an exception flying towards `except Exception`. -/
def processPlaces (city dishName : String) (places : PyVal) : Except Exn PyVal :=
  if places.isTruthy = false then
    Except.ok (errDict ("No results found for '" ++ dishName ++ "' in " ++ city))
  else
    match places.get "results" with
    | Except.error e => Except.error e
    | Except.ok resultsO =>
      if (resultsO.getD PyVal.none).isTruthy = false then
        Except.ok (errDict ("No results found for '" ++ dishName ++ "' in " ++ city))
      else
        match places.getItem "results" with
        | Except.error e => Except.error e
        | Except.ok resultsV =>
          match resultsV with
          | PyVal.list rs =>
            match buildRestaurants (rs.take 3) with
            | Except.error e => Except.error e
            | Except.ok restaurants =>
              Except.ok (PyVal.dict [("restaurants", PyVal.list restaurants)])
          | _ => Except.error (Exn.otherExn "TypeError: unhashable type: slice")

/-- `findTopRestaurants` (lines 73-99).  `gmapsPlaces` is the places-search
oracle, consulted at the query string line 79 builds; everything in the
function body sits inside the `try:`, so every exception is caught on line
98 and the function always returns a dict. -/
def findTopRestaurants (city dishName : String)
    (gmapsPlaces : String → MapsResult) : PyVal :=
  match gmapsPlaces (buildQuery city dishName) with
  | MapsResult.exn e =>
    errDict ("An unexpected error occurred with Google Maps API: " ++ e)
  | MapsResult.ok places =>
    match processPlaces city dishName places with
    | Except.ok v => v
    | Except.error (Exn.keyError k) =>
      errDict ("An unexpected error occurred with Google Maps API: '" ++ k ++ "'")
    | Except.error (Exn.otherExn m) =>
      errDict ("An unexpected error occurred with Google Maps API: " ++ m)

/-- The static `city_dishes` table of lines 102-123. -/
def city_dishes : List (String × List (String × String)) :=
  [("Hyderabad",
    [("breakfast", "Pesarattu"), ("lunch", "Hyderabadi Biryani"), ("dinner", "Haleem")]),
   ("Mumbai",
    [("breakfast", "Vada Pav"), ("lunch", "Bombay Sandwich"), ("dinner", "Pav Bhaji")]),
   ("Delhi",
    [("breakfast", "Chole Bhature"), ("lunch", "Butter Chicken"), ("dinner", "Rajma Chawal")]),
   ("Chennai",
    [("breakfast", "Idli"), ("lunch", "Sambar Rice"), ("dinner", "Dosa")])]

/-- `getIconicDish` (lines 101-124):
`city_dishes.get(city, {}).get(meal_time, f"Famous {meal_time} dish")`. -/
def getIconicDish (city meal_time : String) : String :=
  (((city_dishes.lookup city).getD []).lookup meal_time).getD
    ("Famous " ++ meal_time ++ " dish")

/-- `result.status in ["succeeded", "failed"]` (line 265). -/
def isTerminalStatus (s : String) : Bool :=
  s == "succeeded" || s == "failed"

/-- The `while True:` polling loop of lines 263-266, fuel-indexed.  The
`i`-th call of `client.executions.get` is modelled as `statuses i`; the
loop breaks (returning the index of the final poll) exactly when the
polled status is in `["succeeded", "failed"]`, and otherwise polls again —
there is no sleep, timeout or cancellation, so without a terminal status
no amount of fuel makes it return. -/
def pollLoop (statuses : ℕ → String) : ℕ → ℕ → Option ℕ
  | 0, _ => Option.none
  | fuel + 1, i =>
    if isTerminalStatus (statuses i) then Option.some i
    else pollLoop statuses fuel (i + 1)

/-- Does a returned dict contain the given key?  (False on non-dicts.) -/
def PyVal.hasKey : PyVal → String → Bool
  | .dict fs, k => (fs.lookup k).isSome
  | _, _ => false

/-- A well-formed forecast entry: `dt` (unix timestamp), `main.temp`,
`weather[0].description`, as the weather API promises. -/
structure Entry where
  dt : ℚ
  temp : ℚ
  cond : String

/-- The JSON shape of a well-formed forecast entry. -/
def encEntry (e : Entry) : PyVal :=
  PyVal.dict
    [("dt", PyVal.num e.dt),
     ("main", PyVal.dict [("temp", PyVal.num e.temp)]),
     ("weather", PyVal.list [PyVal.dict [("description", PyVal.str e.cond)]])]

/-- The JSON shape of a successful (`cod = "200"`) forecast response. -/
def encBody (cityName : String) (es : List Entry) : PyVal :=
  PyVal.dict
    [("cod", PyVal.str "200"),
     ("city", PyVal.dict [("name", PyVal.str cityName)]),
     ("list", PyVal.list (es.map encEntry))]

/-- Specification-side selection (from the spec's words, for comparison
with the loop of lines 33-41): the first entry in list order whose
timestamp is strictly between `now` and `now + 24h` and whose local hour
lies in `[lo, hi)`. -/
def firstInWindow (now : ℚ) (tz : ℤ) (lo hi : ℤ) : List Entry → Option Entry
  | [] => Option.none
  | e :: es =>
    if now < e.dt ∧ e.dt < now + 86400 ∧ lo ≤ pyHour tz e.dt ∧ pyHour tz e.dt < hi then
      Option.some e
    else firstInWindow now tz lo hi es

/-- Specification-side result slot: the rounded Celsius temperature and the
condition string of the selected entry, or `None` for an empty window. -/
def encSlot : Option Entry → PyVal
  | Option.none => PyVal.none
  | Option.some e =>
    PyVal.dict
      [("temperatureInCelsius", PyVal.num ((pyRound e.temp : ℤ) : ℚ)),
       ("condition", PyVal.str e.cond)]

/-- A place in a places-search response: an optional `name` value, an
optional `rating` value, and an optional `address` sub-dict. -/
structure PlaceE where
  nameV : Option PyVal
  ratingV : Option PyVal
  addressFields : Option (List (String × PyVal))

/-- The JSON shape of a place: each field present exactly when given. -/
def encPlace (p : PlaceE) : PyVal :=
  PyVal.dict
    ((match p.nameV with
      | Option.some v => [("name", v)]
      | Option.none => []) ++
     (match p.ratingV with
      | Option.some v => [("rating", v)]
      | Option.none => []) ++
     (match p.addressFields with
      | Option.some fs => [("address", PyVal.dict fs)]
      | Option.none => []))

/-- Specification-side reduction of a place (from the spec's words): its
name, its rating or `"N/A"` when absent, and the `formatted_address` of its
address sub-dict or `"Address Not Available"` when absent. -/
def reducedPlace (p : PlaceE) : PyVal :=
  PyVal.dict
    [("name", p.nameV.getD PyVal.none),
     ("rating", p.ratingV.getD (PyVal.str "N/A")),
     ("address",
      ((p.addressFields.bind (fun fs => fs.lookup "formatted_address")).getD
        (PyVal.str "Address Not Available")))]

/-! ## Helper lemmas -/

theorem isStr200_eq_false_of_ne (v : PyVal) (h : v ≠ PyVal.str "200") :
    isStr200 v = false := by
  cases v with
  | str s =>
    simp only [isStr200, beq_eq_false_iff_ne, ne_eq]
    intro hs
    exact h (by rw [hs])
  | none => rfl
  | bool b => rfl
  | num q => rfl
  | list xs => rfl
  | dict fs => rfl

theorem hasKey_errDict (msg : String) : PyVal.hasKey (errDict msg) "error" = true := rfl

theorem errDict_ne_empty (msg : String) : errDict msg ≠ PyVal.dict [] := by
  simp [errDict]

theorem pollLoop_some (st : ℕ → String) :
    ∀ fuel i n, pollLoop st fuel i = Option.some n →
      i ≤ n ∧ isTerminalStatus (st n) = true ∧
        ∀ m, i ≤ m → m < n → isTerminalStatus (st m) = false := by
  intro fuel
  induction fuel with
  | zero => intro i n h; simp [pollLoop] at h
  | succ fuel ih =>
    intro i n h
    by_cases ht : isTerminalStatus (st i) = true
    · rw [pollLoop, if_pos ht] at h
      cases h
      exact ⟨Nat.le_refl i, ht, fun m him hmi => absurd (Nat.lt_of_le_of_lt him hmi) (Nat.lt_irrefl i)⟩
    · rw [pollLoop, if_neg ht] at h
      obtain ⟨hin, hterm, hmin⟩ := ih (i + 1) n h
      refine ⟨Nat.le_trans (Nat.le_succ i) hin, hterm, fun m him hmn => ?_⟩
      rcases Nat.eq_or_lt_of_le him with heq | hlt
      · rw [← heq]; exact Bool.not_eq_true _ ▸ eq_false_of_ne_true ht
      · exact hmin m hlt hmn

theorem pollLoop_reaches (st : ℕ → String) (n : ℕ)
    (hterm : isTerminalStatus (st n) = true)
    (hmin : ∀ m, m < n → isTerminalStatus (st m) = false) :
    ∀ fuel i, i ≤ n → n < i + fuel → pollLoop st fuel i = Option.some n := by
  intro fuel
  induction fuel with
  | zero => intro i hi hlt; omega
  | succ fuel ih =>
    intro i hi hlt
    rcases Nat.eq_or_lt_of_le hi with heq | hlt2
    · rw [heq, pollLoop, if_pos hterm]
    · rw [pollLoop, if_neg (by rw [hmin i hlt2]; simp)]
      exact ih (i + 1) hlt2 (by omega)

theorem pollLoop_never (st : ℕ → String)
    (h : ∀ n, isTerminalStatus (st n) = false) :
    ∀ fuel i, pollLoop st fuel i = Option.none := by
  intro fuel
  induction fuel with
  | zero => intro i; rfl
  | succ fuel ih => intro i; rw [pollLoop, if_neg (by rw [h i]; simp)]; exact ih (i + 1)

/-! ## Claim theorems -/

/-- C5: for every city not in the static dish table and every meal string
whatsoever, `getIconicDish` returns exactly `"Famous {meal_time} dish"`
with the meal string interpolated (and, being a total function, never
raises or returns an error). -/
theorem c5_iconic_dish_fallback (city meal : String)
    (h1 : city ≠ "Hyderabad") (h2 : city ≠ "Mumbai")
    (h3 : city ≠ "Delhi") (h4 : city ≠ "Chennai") :
    getIconicDish city meal = "Famous " ++ meal ++ " dish" := by
  have b1 : (city == "Hyderabad") = false := beq_eq_false_iff_ne.mpr h1
  have b2 : (city == "Mumbai") = false := beq_eq_false_iff_ne.mpr h2
  have b3 : (city == "Delhi") = false := beq_eq_false_iff_ne.mpr h3
  have b4 : (city == "Chennai") = false := beq_eq_false_iff_ne.mpr h4
  have hl : city_dishes.lookup city = Option.none := by
    simp [city_dishes, List.lookup, b1, b2, b3, b4]
  simp [getIconicDish, hl]

/-- Witness for C5 at city `"Paris"`, meal `"brunch"`. -/
theorem c5_witness : getIconicDish "Paris" "brunch" = "Famous brunch dish" :=
  c5_iconic_dish_fallback "Paris" "brunch"
    (by simp) (by simp) (by simp) (by simp)

/-- C10: the dish-table lookup is exact and case-sensitive — casing
variants of the table keys (city `"chennai"`, `"CHENNAI"`, `"hyderabad"`;
meal `"Breakfast"`, `"LUNCH"`) all fall through to the generated fallback
string, while the exactly-cased pair hits the table. -/
theorem c10_case_sensitive_lookup :
    getIconicDish "chennai" "breakfast" = "Famous breakfast dish" ∧
    getIconicDish "CHENNAI" "lunch" = "Famous lunch dish" ∧
    getIconicDish "hyderabad" "dinner" = "Famous dinner dish" ∧
    getIconicDish "Chennai" "Breakfast" = "Famous Breakfast dish" ∧
    getIconicDish "Chennai" "LUNCH" = "Famous LUNCH dish" ∧
    getIconicDish "Chennai" "breakfast" = "Idli" :=
  ⟨rfl, rfl, rfl, rfl, rfl, rfl⟩

/-- C6: `getIconicDish` is deterministic and total on the 12 fixed
(city, meal) pairs of the 4 × 3 table — in particular the three Chennai
dishes — and `findTopRestaurants` consults its places oracle exactly at
the query `"Best authentic {dish} restaurants in {city}"` built from the
dish. -/
theorem c6_dish_table_and_query :
    (getIconicDish "Hyderabad" "breakfast" = "Pesarattu" ∧
     getIconicDish "Hyderabad" "lunch" = "Hyderabadi Biryani" ∧
     getIconicDish "Hyderabad" "dinner" = "Haleem" ∧
     getIconicDish "Mumbai" "breakfast" = "Vada Pav" ∧
     getIconicDish "Mumbai" "lunch" = "Bombay Sandwich" ∧
     getIconicDish "Mumbai" "dinner" = "Pav Bhaji" ∧
     getIconicDish "Delhi" "breakfast" = "Chole Bhature" ∧
     getIconicDish "Delhi" "lunch" = "Butter Chicken" ∧
     getIconicDish "Delhi" "dinner" = "Rajma Chawal" ∧
     getIconicDish "Chennai" "breakfast" = "Idli" ∧
     getIconicDish "Chennai" "lunch" = "Sambar Rice" ∧
     getIconicDish "Chennai" "dinner" = "Dosa") ∧
    (buildQuery "Chennai" (getIconicDish "Chennai" "breakfast") =
       "Best authentic Idli restaurants in Chennai" ∧
     buildQuery "Chennai" (getIconicDish "Chennai" "lunch") =
       "Best authentic Sambar Rice restaurants in Chennai" ∧
     buildQuery "Chennai" (getIconicDish "Chennai" "dinner") =
       "Best authentic Dosa restaurants in Chennai") ∧
    (∀ city dishName f g, f (buildQuery city dishName) = g (buildQuery city dishName) →
       findTopRestaurants city dishName f = findTopRestaurants city dishName g) :=
  ⟨⟨rfl, rfl, rfl, rfl, rfl, rfl, rfl, rfl, rfl, rfl, rfl, rfl⟩,
   ⟨rfl, rfl, rfl⟩,
   fun city dishName f g h => by unfold findTopRestaurants; rw [h]⟩

/-- Witness for C6: two oracles that agree at the built Chennai/Idli query
give the same restaurant result. -/
theorem c6_witness :
    findTopRestaurants "Chennai" "Idli"
        (fun _ => MapsResult.exn "Best authentic Idli restaurants in Chennai") =
      findTopRestaurants "Chennai" "Idli" (fun q => MapsResult.exn q) :=
  c6_dish_table_and_query.2.2 "Chennai" "Idli" _ _ rfl

/-- C7: the polling loop returns exactly at the first index whose status
is `"succeeded"` or `"failed"` (first conjunct: any exit index is terminal
and minimal; second: the minimal terminal index is reached given enough
fuel); and when no poll ever returns a terminal status the loop never
exits, for any amount of fuel (third conjunct) — there is no timeout or
cancellation path. -/
theorem c7_poll_loop_terminal :
    (∀ st fuel i n, pollLoop st fuel i = Option.some n →
      i ≤ n ∧ isTerminalStatus (st n) = true ∧
        ∀ m, i ≤ m → m < n → isTerminalStatus (st m) = false) ∧
    (∀ st n, isTerminalStatus (st n) = true →
      (∀ m, m < n → isTerminalStatus (st m) = false) →
      ∀ fuel, n < fuel → pollLoop st fuel 0 = Option.some n) ∧
    (∀ st, (∀ n, isTerminalStatus (st n) = false) →
      ∀ fuel i, pollLoop st fuel i = Option.none) :=
  ⟨fun st fuel i n h => pollLoop_some st fuel i n h,
   fun st n hterm hmin fuel hf =>
     pollLoop_reaches st n hterm hmin fuel 0 (Nat.zero_le n) (by omega),
   fun st h fuel i => pollLoop_never st h fuel i⟩

/-- Witness for C7: a status stream that turns `"succeeded"` at index 1 is
exited at index 1. -/
theorem c7_witness :
    pollLoop (fun i => if i == 1 then "succeeded" else "running") 3 0 = Option.some 1 :=
  c7_poll_loop_terminal.2.1 (fun i => if i == 1 then "succeeded" else "running") 1
    rfl
    (fun m hm => by
      have hm0 : m = 0 := Nat.lt_one_iff.mp hm
      rw [hm0]; rfl)
    3 (by omega)

/-- C2: a parsed weather response body whose `cod` field differs from the
string `"200"` yields exactly the empty dict `{}` — which carries no
`error` key — while every exception path (connection / HTTP / JSON-decode
failure, and any exception escaping the parsing code) instead yields a
dict that does carry an `error` key and is distinct from `{}`. -/
theorem c2_cod_not_200_empty_dict :
    (∀ (k city : String) (now : ℚ) (tz : ℤ) fs v,
      fs.lookup "cod" = Option.some v → v ≠ PyVal.str "200" →
      getWeatherDetails (Option.some k) city (Resp.ok (PyVal.dict fs)) now tz =
        Except.ok (PyVal.dict [])) ∧
    (PyVal.hasKey (PyVal.dict []) "error" = false) ∧
    (∀ (k city e : String) (now : ℚ) (tz : ℤ),
      getWeatherDetails (Option.some k) city (Resp.connError e) now tz =
        Except.ok (errDict ("Error connecting to Weather Service: " ++ e)) ∧
      getWeatherDetails (Option.some k) city (Resp.httpError e) now tz =
        Except.ok (errDict ("Error connecting to Weather Service: " ++ e)) ∧
      getWeatherDetails (Option.some k) city (Resp.jsonError e) now tz =
        Except.ok (errDict ("Error connecting to Weather Service: " ++ e))) ∧
    (∀ (k city : String) (now : ℚ) (tz : ℤ) body ex,
      processBody body now tz = Except.error ex →
      ∃ msg, getWeatherDetails (Option.some k) city (Resp.ok body) now tz =
        Except.ok (errDict msg)) ∧
    (∀ msg, PyVal.hasKey (errDict msg) "error" = true ∧ errDict msg ≠ PyVal.dict []) := by
  refine ⟨?_, rfl, fun k city e now tz => ⟨rfl, rfl, rfl⟩, ?_, fun msg => ⟨rfl, errDict_ne_empty msg⟩⟩
  · intro k city now tz fs v hl hv
    have hp : processBody (PyVal.dict fs) now tz = Except.ok (PyVal.dict []) := by
      unfold processBody
      simp only [show (PyVal.dict fs).get "cod" = Except.ok (fs.lookup "cod") from rfl, hl,
        Option.getD_some, isStr200_eq_false_of_ne v hv]
      simp
    simp only [getWeatherDetails, hp]
  · intro k city now tz body ex h
    cases ex with
    | keyError s =>
      refine ⟨"Unexpected data format from weather service. Missing key: '" ++ s ++ "'", ?_⟩
      simp only [getWeatherDetails, h]
    | otherExn s =>
      refine ⟨"Unexpected Error " ++ s, ?_⟩
      simp only [getWeatherDetails, h]

/-- Witness for C2 at a body with numeric `cod = 404`. -/
theorem c2_witness :
    getWeatherDetails (Option.some "K") "Paris"
      (Resp.ok (PyVal.dict [("cod", PyVal.num 404)])) 0 0 = Except.ok (PyVal.dict []) :=
  c2_cod_not_200_empty_dict.1 "K" "Paris" 0 0 [("cod", PyVal.num 404)] (PyVal.num 404)
    rfl (fun h => nomatch h)

theorem processPlaces_ok_shape (city dishName : String) (places v : PyVal)
    (h : processPlaces city dishName places = Except.ok v) :
    (∃ msg, v = errDict msg) ∨
    ∃ rs, v = PyVal.dict [("restaurants", PyVal.list rs)] := by
  unfold processPlaces at h
  split at h
  · cases h; exact Or.inl ⟨_, rfl⟩
  · split at h
    · exact Except.noConfusion h
    · split at h
      · cases h; exact Or.inl ⟨_, rfl⟩
      · split at h
        · exact Except.noConfusion h
        · split at h
          · split at h
            · exact Except.noConfusion h
            · cases h; exact Or.inr ⟨_, rfl⟩
          · exact Except.noConfusion h

/-- C9: every value `findTopRestaurants` returns carries exactly one of
the keys `restaurants` and `error` — never both, never neither; the
success payload is wrapped under `restaurants`, not returned bare. -/
theorem c9_restaurants_xor_error (city dishName : String) (g : String → MapsResult) :
    (PyVal.hasKey (findTopRestaurants city dishName g) "restaurants" = true ∧
     PyVal.hasKey (findTopRestaurants city dishName g) "error" = false) ∨
    (PyVal.hasKey (findTopRestaurants city dishName g) "error" = true ∧
     PyVal.hasKey (findTopRestaurants city dishName g) "restaurants" = false) := by
  cases hg : g (buildQuery city dishName) with
  | exn e =>
    have hr : findTopRestaurants city dishName g =
        errDict ("An unexpected error occurred with Google Maps API: " ++ e) := by
      unfold findTopRestaurants; rw [hg]
    rw [hr]; exact Or.inr ⟨rfl, rfl⟩
  | ok places =>
    have hr : findTopRestaurants city dishName g =
        (match processPlaces city dishName places with
         | Except.ok v => v
         | Except.error (Exn.keyError k2) =>
           errDict ("An unexpected error occurred with Google Maps API: '" ++ k2 ++ "'")
         | Except.error (Exn.otherExn m) =>
           errDict ("An unexpected error occurred with Google Maps API: " ++ m)) := by
      unfold findTopRestaurants; rw [hg]
    rw [hr]
    cases hp : processPlaces city dishName places with
    | error ex => cases ex <;> exact Or.inr ⟨rfl, rfl⟩
    | ok v =>
      rcases processPlaces_ok_shape city dishName places v hp with ⟨msg, rfl⟩ | ⟨rs, rfl⟩
      · exact Or.inr ⟨rfl, rfl⟩
      · exact Or.inl ⟨rfl, rfl⟩

/-- C1 counterexample: with `OPENWEATHER_API_KEY` unset (`None`), the URL
concatenation of line 19 runs *before* the `try:` of line 21, so
`getWeatherDetails` raises a `TypeError` to its caller instead of
returning an `error` dict — the claim fails at this input. -/
theorem c1_counterexample :
    getWeatherDetails Option.none "Paris" (Resp.connError "boom") 0 0 =
      Except.error "TypeError: can only concatenate str (not \"NoneType\") to str" := rfl

/-- C1 amended: with `OPENWEATHER_API_KEY` set, `getWeatherDetails` never
raises, for any response outcome; a connection failure yields an `error`
string mentioning the weather service; `findTopRestaurants` never raises
for any input (any exception of the client construction or places call,
including an unset `MAPS_API_KEY`, is caught and returned as a Google
Maps `error` dict); and every `errDict` carries the `error` key. -/
theorem c1_amended_no_raise :
    (∀ (k city : String) resp (now : ℚ) (tz : ℤ),
      (getWeatherDetails (Option.some k) city resp now tz).isOk = true) ∧
    (∀ (k city e : String) (now : ℚ) (tz : ℤ),
      getWeatherDetails (Option.some k) city (Resp.connError e) now tz =
        Except.ok (errDict ("Error connecting to Weather Service: " ++ e))) ∧
    (∀ city dishName e : String,
      findTopRestaurants city dishName (fun _ => MapsResult.exn e) =
        errDict ("An unexpected error occurred with Google Maps API: " ++ e)) ∧
    (∀ msg, PyVal.hasKey (errDict msg) "error" = true) :=
  ⟨fun k city resp now tz => rfl,
   fun k city e now tz => rfl,
   fun city dishName e => rfl,
   fun msg => rfl⟩

theorem mkRestaurant_enc (p : PlaceE) :
    mkRestaurant (encPlace p) = Except.ok (reducedPlace p) := by
  obtain ⟨n, r, a⟩ := p
  cases n <;> cases r <;> cases a <;> rfl

theorem buildRestaurants_enc (ps : List PlaceE) :
    buildRestaurants (ps.map encPlace) = Except.ok (ps.map reducedPlace) := by
  induction ps with
  | nil => rfl
  | cons p ps ih =>
    simp only [List.map_cons, buildRestaurants, mkRestaurant_enc p, ih]

/-- C4: on a places response with `n ≥ 1` results, `findTopRestaurants`
returns exactly the first `min(n, 3)` results in order, each reduced to
its name, its rating or `"N/A"` when absent, and the formatted address of
its address object or `"Address Not Available"` when absent; on a response
with 0 results, it returns a dict whose `error` string mentions both the
dish and the city. -/
theorem c4_top3_reduction :
    (∀ (city dishName : String) (p : PlaceE) (ps : List PlaceE),
      findTopRestaurants city dishName
        (fun _ => MapsResult.ok (PyVal.dict
          [("results", PyVal.list ((p :: ps).map encPlace))])) =
      PyVal.dict [("restaurants", PyVal.list (((p :: ps).take 3).map reducedPlace))]) ∧
    (∀ city dishName : String,
      findTopRestaurants city dishName
        (fun _ => MapsResult.ok (PyVal.dict [("results", PyVal.list [])])) =
      errDict ("No results found for '" ++ dishName ++ "' in " ++ city)) := by
  constructor
  · intro city dishName p ps
    have hp : processPlaces city dishName
        (PyVal.dict [("results", PyVal.list ((p :: ps).map encPlace))]) =
        Except.ok (PyVal.dict
          [("restaurants", PyVal.list (((p :: ps).take 3).map reducedPlace))]) := by
      show (match buildRestaurants ((encPlace p :: ps.map encPlace).take 3) with
            | Except.error e => Except.error e
            | Except.ok restaurants =>
              Except.ok (PyVal.dict [("restaurants", PyVal.list restaurants)])) = _
      rw [show ((encPlace p :: ps.map encPlace).take 3) =
            ((p :: ps).take 3).map encPlace by rw [List.map_take, List.map_cons]]
      rw [buildRestaurants_enc]
    simp only [findTopRestaurants, hp]
  · intro city dishName
    rfl

/-- Witness-style corollary of C4 at one result with all fields absent. -/
theorem c4_example :
    findTopRestaurants "Chennai" "Idli"
      (fun _ => MapsResult.ok (PyVal.dict
        [("results", PyVal.list [encPlace ⟨Option.none, Option.none, Option.none⟩])])) =
    PyVal.dict [("restaurants", PyVal.list
      [PyVal.dict [("name", PyVal.none), ("rating", PyVal.str "N/A"),
                   ("address", PyVal.str "Address Not Available")]])] :=
  c4_top3_reduction.1 "Chennai" "Idli" ⟨Option.none, Option.none, Option.none⟩ []

theorem processBody_ok_shape (body : PyVal) (now : ℚ) (tz : ℤ) (v : PyVal)
    (h : processBody body now tz = Except.ok v) :
    v = PyVal.dict [] ∨
    ∃ c m l e, v = PyVal.dict
      [("city", c), ("morning", m), ("lunch", l), ("evening", e)] := by
  unfold processBody at h
  split at h
  · exact Except.noConfusion h
  · split at h
    · cases h; exact Or.inl rfl
    · split at h
      · exact Except.noConfusion h
      · split at h
        · exact Except.noConfusion h
        · split at h
          · exact Except.noConfusion h
          · split at h
            · exact Except.noConfusion h
            · split at h
              · exact Except.noConfusion h
              · split at h
                · exact Except.noConfusion h
                · split at h
                  · exact Except.noConfusion h
                  · split at h
                    · exact Except.noConfusion h
                    · cases h; exact Or.inr ⟨_, _, _, _, rfl⟩

/-- C8: every non-error, non-empty value `getWeatherDetails` returns (with
the key set) is a dict with exactly the four keys `city`, `morning`,
`lunch`, `evening`, in that order — empty forecast windows are present
with value `None`, never omitted. -/
theorem c8_success_keys (k city : String) (resp : Resp) (now : ℚ) (tz : ℤ) (v : PyVal)
    (h : getWeatherDetails (Option.some k) city resp now tz = Except.ok v)
    (herr : PyVal.hasKey v "error" = false) (hne : v ≠ PyVal.dict []) :
    ∃ c m l e, v = PyVal.dict
      [("city", c), ("morning", m), ("lunch", l), ("evening", e)] := by
  cases resp with
  | connError e =>
    rw [show getWeatherDetails (Option.some k) city (Resp.connError e) now tz =
          Except.ok (errDict ("Error connecting to Weather Service: " ++ e)) from rfl] at h
    cases h
    exact absurd herr (by rw [hasKey_errDict]; simp)
  | httpError e =>
    rw [show getWeatherDetails (Option.some k) city (Resp.httpError e) now tz =
          Except.ok (errDict ("Error connecting to Weather Service: " ++ e)) from rfl] at h
    cases h
    exact absurd herr (by rw [hasKey_errDict]; simp)
  | jsonError e =>
    rw [show getWeatherDetails (Option.some k) city (Resp.jsonError e) now tz =
          Except.ok (errDict ("Error connecting to Weather Service: " ++ e)) from rfl] at h
    cases h
    exact absurd herr (by rw [hasKey_errDict]; simp)
  | ok body =>
    cases hp : processBody body now tz with
    | ok w =>
      have hv : v = w := by
        rw [show getWeatherDetails (Option.some k) city (Resp.ok body) now tz =
              Except.ok (match processBody body now tz with
                | Except.ok u => u
                | Except.error (Exn.keyError s) =>
                  errDict ("Unexpected data format from weather service. Missing key: '" ++ s ++ "'")
                | Except.error (Exn.otherExn m) =>
                  errDict ("Unexpected Error " ++ m)) from rfl, hp] at h
        cases h; rfl
      subst hv
      rcases processBody_ok_shape body now tz v hp with hempty | hshape
      · exact absurd hempty hne
      · exact hshape
    | error ex =>
      have hv : ∃ msg, v = errDict msg := by
        rw [show getWeatherDetails (Option.some k) city (Resp.ok body) now tz =
              Except.ok (match processBody body now tz with
                | Except.ok u => u
                | Except.error (Exn.keyError s) =>
                  errDict ("Unexpected data format from weather service. Missing key: '" ++ s ++ "'")
                | Except.error (Exn.otherExn m) =>
                  errDict ("Unexpected Error " ++ m)) from rfl, hp] at h
        cases ex with
        | keyError s => cases h; exact ⟨_, rfl⟩
        | otherExn m => cases h; exact ⟨_, rfl⟩
      obtain ⟨msg, rfl⟩ := hv
      exact absurd herr (by rw [hasKey_errDict]; simp)

/-- Witness for C8 on a successful response with an empty forecast list:
all three window keys are present with value `None`. -/
theorem c8_witness :
    ∃ c m l e,
      PyVal.dict [("city", PyVal.str "X"), ("morning", PyVal.none),
                  ("lunch", PyVal.none), ("evening", PyVal.none)] =
      PyVal.dict [("city", c), ("morning", m), ("lunch", l), ("evening", e)] :=
  c8_success_keys "K" "X" (Resp.ok (encBody "X" [])) 0 0
    (PyVal.dict [("city", PyVal.str "X"), ("morning", PyVal.none),
                 ("lunch", PyVal.none), ("evening", PyVal.none)])
    rfl rfl (by simp)

theorem slotEmpty_map_enc (o : Option Entry) :
    slotEmpty (o.map encEntry) = o.isNone := by
  cases o <;> rfl

theorem mkSlot_enc (o : Option Entry) :
    mkSlot (o.map encEntry) = Except.ok (encSlot o) := by
  cases o <;> rfl

theorem map_ite_enc (C : Prop) [Decidable C] (x : Entry) (m : Option Entry) :
    (if C then Option.some (encEntry x) else m.map encEntry) =
    (if C then Option.some x else m).map encEntry := by
  split <;> rfl

theorem or_update (now : ℚ) (tz lo hi : ℤ) (x : Entry) (es : List Entry)
    (m : Option Entry) (hT : now < x.dt ∧ x.dt < now + 86400) :
    ((if lo ≤ pyHour tz x.dt ∧ pyHour tz x.dt < hi ∧ m.isNone = true
      then Option.some x else m).or (firstInWindow now tz lo hi es)) =
    m.or (firstInWindow now tz lo hi (x :: es)) := by
  rw [firstInWindow]
  cases m with
  | some a =>
    have hc : ¬(lo ≤ pyHour tz x.dt ∧ pyHour tz x.dt < hi ∧
        (Option.some a).isNone = true) := by
      rintro ⟨-, -, hfalse⟩
      simp at hfalse
    rw [if_neg hc]
    rfl
  | none =>
    by_cases hH : lo ≤ pyHour tz x.dt ∧ pyHour tz x.dt < hi
    · rw [if_pos ⟨hH.1, hH.2, rfl⟩, if_pos ⟨hT.1, hT.2, hH.1, hH.2⟩]
      rfl
    · rw [if_neg (fun hc => hH ⟨hc.1, hc.2.1⟩),
          if_neg (fun hc => hH ⟨hc.2.2.1, hc.2.2.2⟩)]

theorem fIW_cons_skip (now : ℚ) (tz lo hi : ℤ) (x : Entry) (es : List Entry)
    (hT : ¬(now < x.dt ∧ x.dt < now + 86400)) :
    firstInWindow now tz lo hi (x :: es) = firstInWindow now tz lo hi es := by
  rw [firstInWindow, if_neg (fun hc => hT ⟨hc.1, hc.2.1⟩)]

theorem bucketLoop_enc (now : ℚ) (tz : ℤ) (es : List Entry) :
    ∀ m l ev : Option Entry,
      bucketLoop now tz (es.map encEntry)
          (m.map encEntry, l.map encEntry, ev.map encEntry) =
        Except.ok ((m.or (firstInWindow now tz 7 12 es)).map encEntry,
                   (l.or (firstInWindow now tz 12 17 es)).map encEntry,
                   (ev.or (firstInWindow now tz 18 23 es)).map encEntry) := by
  induction es with
  | nil =>
    intro m l ev
    cases m <;> cases l <;> cases ev <;> rfl
  | cons x es ih =>
    intro m l ev
    rw [List.map_cons]
    show (if now < x.dt ∧ x.dt < now + 86400 then
        bucketLoop now tz (es.map encEntry)
          (if 7 ≤ pyHour tz x.dt ∧ pyHour tz x.dt < 12 ∧
              slotEmpty (m.map encEntry) = true
           then Option.some (encEntry x) else m.map encEntry,
           if 12 ≤ pyHour tz x.dt ∧ pyHour tz x.dt < 17 ∧
              slotEmpty (l.map encEntry) = true
           then Option.some (encEntry x) else l.map encEntry,
           if 18 ≤ pyHour tz x.dt ∧ pyHour tz x.dt < 23 ∧
              slotEmpty (ev.map encEntry) = true
           then Option.some (encEntry x) else ev.map encEntry)
      else bucketLoop now tz (es.map encEntry)
        (m.map encEntry, l.map encEntry, ev.map encEntry)) = _
    by_cases hT : now < x.dt ∧ x.dt < now + 86400
    · rw [if_pos hT]
      simp only [slotEmpty_map_enc]
      rw [map_ite_enc, map_ite_enc, map_ite_enc, ih]
      rw [or_update now tz 7 12 x es m hT, or_update now tz 12 17 x es l hT,
          or_update now tz 18 23 x es ev hT]
    · rw [if_neg hT, ih]
      rw [fIW_cons_skip now tz 7 12 x es hT, fIW_cons_skip now tz 12 17 x es hT,
          fIW_cons_skip now tz 18 23 x es hT]

theorem bucketLoop_enc_nil (now : ℚ) (tz : ℤ) (es : List Entry) :
    bucketLoop now tz (es.map encEntry) (Option.none, Option.none, Option.none) =
      Except.ok ((firstInWindow now tz 7 12 es).map encEntry,
                 (firstInWindow now tz 12 17 es).map encEntry,
                 (firstInWindow now tz 18 23 es).map encEntry) :=
  bucketLoop_enc now tz es Option.none Option.none Option.none

/-- C3: on a successful forecast response, `getWeatherDetails` fills each
of the three hour windows — morning `[7,12)`, lunch `[12,17)`, evening
`[18,23)` of the local hour — with the first entry (in list order) whose
timestamp is strictly between `now` and `now + 24h`; each populated slot
holds the banker's-rounded integer Celsius temperature and the condition
string of that entry, and a window with no matching entry is `None`. -/
theorem c3_forecast_windows (k city cname : String) (es : List Entry)
    (now : ℚ) (tz : ℤ) :
    getWeatherDetails (Option.some k) city (Resp.ok (encBody cname es)) now tz =
      Except.ok (PyVal.dict
        [("city", PyVal.str cname),
         ("morning", encSlot (firstInWindow now tz 7 12 es)),
         ("lunch", encSlot (firstInWindow now tz 12 17 es)),
         ("evening", encSlot (firstInWindow now tz 18 23 es))]) := by
  have hb : processBody (encBody cname es) now tz =
      Except.ok (PyVal.dict
        [("city", PyVal.str cname),
         ("morning", encSlot (firstInWindow now tz 7 12 es)),
         ("lunch", encSlot (firstInWindow now tz 12 17 es)),
         ("evening", encSlot (firstInWindow now tz 18 23 es))]) := by
    show (match bucketLoop now tz (es.map encEntry)
            (Option.none, Option.none, Option.none) with
          | Except.error e => Except.error e
          | Except.ok (m, l, ev) =>
            match mkSlot m with
            | Except.error ex => Except.error ex
            | Except.ok mV =>
              match mkSlot l with
              | Except.error ex => Except.error ex
              | Except.ok lV =>
                match mkSlot ev with
                | Except.error ex => Except.error ex
                | Except.ok eV =>
                  Except.ok (PyVal.dict
                    [("city", PyVal.str cname), ("morning", mV),
                     ("lunch", lV), ("evening", eV)])) = _
    rw [bucketLoop_enc_nil]
    simp only [mkSlot_enc]
  simp only [getWeatherDetails, hb]

end Final

